import Mathlib

/-!
Shallow embedding of the ONTAP SAN storage driver
(`storage_drivers/ontap/ontap_san.go`) for the claims about its
provisioning and capacity-reconciliation engine.

The remote controller is scripted: every remote call a method issues is
answered by a field of a per-call script record, and the embedding threads
the scripted answers through the same control flow as the Go source.
Sizes are modelled as `Nat` (the Go code formats them back to decimal
strings with `strconv.FormatUint`, which is injective, so the numeric
value is the whole content of `volConfig.Size`).
-/

set_option autoImplicit false

namespace OntapSan

/-- Controller error code `azgo.EAPIERROR` (value from the api package). -/
def EAPIERROR : String := "13001"

/-- Controller error code `azgo.EVOLUMEDOESNOTEXIST` (value from the api package). -/
def EVOLUMEDOESNOTEXIST : String := "13040"

/-- A ZAPI domain error carried inside a controller response: a code and a
reason text, as inspected by `zerr.Code()` and `zerr.Reason()`. -/
structure ZapiError where
  code : String
  reason : String
deriving Repr

/-- Rendering of a ZAPI error used when it is formatted into a message. -/
def ZapiError.msg (z : ZapiError) : String :=
  z.code ++ ": " ++ z.reason

/-- Combined outcome of `api.GetError(response, err)`: either a transport
error, or a domain (ZAPI) error extracted from a delivered response.
Only the `zapi` form passes the `err.(api.ZapiError)` type assertion. -/
inductive ApiErr where
  | transport (msg : String)
  | zapi (e : ZapiError)
deriving Repr

/-- Message text of a combined api error (the `%v` rendering). -/
def ApiErr.msg : ApiErr → String
  | .transport m => m
  | .zapi z => z.msg

/-- ASCII whitespace, as trimmed by `strings.TrimSpace`. -/
def isSpaceChar (c : Char) : Bool :=
  c = ' ' || c = '\t' || c = '\n' || c = '\x0b' || c = '\x0c' || c = '\r'

/-- `strings.TrimSpace` on the character list of a string: drop leading
and trailing whitespace. -/
def trimSpaceChars (s : List Char) : List Char :=
  ((s.dropWhile isSpaceChar).reverse.dropWhile isSpaceChar).reverse

/-- `strings.HasSuffix` on character lists. -/
def hasSuffixChars (s suff : List Char) : Bool :=
  List.isSuffixOf suff s

/-- The check at lines 284-290 of `Create`: the error is a ZAPI error with
code `EAPIERROR` whose trimmed reason ends in `Job exists`. -/
def isJobExistsErr : ApiErr → Bool
  | .transport _ => false
  | .zapi z =>
    z.code == EAPIERROR && hasSuffixChars (trimSpaceChars z.reason.data) "Job exists".data

/-- `lunPath` from line 22: the fixed, well-known LUN path inside a volume. -/
def lunPath (name : String) : String :=
  "/vol/" ++ name ++ "/lun0"

/-- Scripted answers for the capacity-reconciliation block
(lines 328-350 of `Create`, lines 1047-1069 of `Resize`):
the initial `VolumeSize` read, the `VolumeSetSize` call, and the
`VolumeSize` re-read after the second resize. -/
structure ReconScript where
  readSize1 : Except String Nat
  setSize : Option ApiErr
  readSize2 : Except String Nat
deriving Repr

/-- One placement candidate (a physical pool / aggregate) together with the
scripted answers to the remote calls `Create` issues on it. -/
structure Candidate where
  aggrName : String
  aggrLimitsErr : Option String
  volCreate : Option ApiErr
  lunCreate : Except ApiErr Nat
  setAttrFstype : Option ApiErr
  setAttrContext : Option ApiErr
  recon : ReconScript
deriving Repr

/-- The terminal result of `Create`:
`ok` is a nil error return; `alreadyExists` is
`drivers.NewVolumeExistsError(name)` from line 183; `fatal` is a single
`fmt.Errorf` return; `ineligible` is
`drivers.NewBackendIneligibleError(name, createErrors, physicalPoolNames)`
from line 355. -/
inductive CreateResult where
  | ok
  | alreadyExists (name : String)
  | fatal (msg : String)
  | ineligible (createErrors : List String) (physicalPoolNames : List String)
deriving Repr

/-- Observable outcome of a `Create` run: the returned result, the
aggregates on which a Flexvol creation succeeded (none of them is ever
destroyed by `Create`), whether the LUN was scheduled for destruction
(line 316), and the final value written into `volConfig.Size`
(`none` means the field was left untouched). -/
structure CreateOutput where
  result : CreateResult
  volsCreated : List String
  lunDestroyed : Bool
  volConfigSize : Option Nat
deriving Repr

/-- Error message built at lines 271-274 for an aggregate-limits failure. -/
def aggrLimitMsg (pool aggr err : String) : String :=
  "ONTAP-SAN pool " ++ pool ++ "/" ++ aggr ++ "; error: " ++ err

/-- Error message built at lines 293-294 for a volume-creation failure. -/
def volCreateMsg (pool aggr name : String) (e : ApiErr) : String :=
  "ONTAP-SAN pool " ++ pool ++ "/" ++ aggr ++ "; error creating volume " ++ name ++ ": " ++ e.msg

/-- Error message built at lines 306-307 for a LUN-creation failure. -/
def lunCreateMsg (pool aggr name : String) (e : ApiErr) : String :=
  "ONTAP-SAN pool " ++ pool ++ "/" ++ aggr ++ "; error creating LUN " ++ name ++ ": " ++ e.msg

/-- Error message built at lines 317-318 for a failure saving the
file-system-type LUN attribute. -/
def fstypeAttrMsg (pool aggr name : String) (e : ApiErr) : String :=
  "ONTAP-SAN pool " ++ pool ++ "/" ++ aggr ++ "; error saving file system type for LUN " ++ name ++ ": " ++ e.msg

/-- Capacity reconciliation inside `Create` (lines 328-350): compare the
LUN actual size with the volume size, resize the volume on a mismatch, and
update `volConfig.Size` from the re-read; every failure only logs a
warning. Returns the new `volConfig.Size` content. -/
def reconCreate (r : ReconScript) (lunSize : Nat) (vcs : Option Nat) : Option Nat :=
  match r.readSize1 with
  | .error _ => vcs
  | .ok initialVolumeSize =>
    if lunSize ≠ initialVolumeSize then
      match r.setSize with
      | some _ => some initialVolumeSize
      | none =>
        match r.readSize2 with
        | .error _ => vcs
        | .ok adjustedVolumeSize => some adjustedVolumeSize
    else vcs

/-- The candidate loop of `Create` (lines 267-352), with the error list,
pool-name list, created-volume list and `volConfig.Size` threaded as
accumulators exactly as the Go loop mutates them. -/
def createLoop (storagePoolName name : String) (cands : List Candidate)
    (createErrors physicalPoolNames volsCreated : List String)
    (vcs : Option Nat) : CreateOutput :=
  match cands with
  | [] => ⟨.ineligible createErrors physicalPoolNames, volsCreated, false, vcs⟩
  | c :: rest =>
    let physicalPoolNames := physicalPoolNames ++ [c.aggrName]
    match c.aggrLimitsErr with
    | some e =>
      createLoop storagePoolName name rest
        (createErrors ++ [aggrLimitMsg storagePoolName c.aggrName e])
        physicalPoolNames volsCreated vcs
    | none =>
      match c.volCreate with
      | some e =>
        if isJobExistsErr e then
          ⟨.ok, volsCreated, false, vcs⟩
        else
          createLoop storagePoolName name rest
            (createErrors ++ [volCreateMsg storagePoolName c.aggrName name e])
            physicalPoolNames volsCreated vcs
      | none =>
        let volsCreated := volsCreated ++ [c.aggrName]
        match c.lunCreate with
        | .error e =>
          createLoop storagePoolName name rest
            (createErrors ++ [lunCreateMsg storagePoolName c.aggrName name e])
            physicalPoolNames volsCreated vcs
        | .ok lunSize =>
          match c.setAttrFstype with
          | some e =>
            ⟨.fatal (fstypeAttrMsg storagePoolName c.aggrName name e), volsCreated, true, vcs⟩
          | none =>
            -- a failing context-attribute call (lines 321-324) is only logged
            ⟨.ok, volsCreated, false, reconCreate c.recon lunSize vcs⟩

/-- Scripted answers for a whole `Create` call: the initial existence
probe (line 178), the outcome of the pre-loop validation and option
resolution (lines 186-248, all performed by external helpers), and the
candidate list produced by `getPoolsForCreate`. -/
structure CreateScript where
  volExists : Except String Bool
  preErr : Option String
  candidates : List Candidate
deriving Repr

/-- `Create` (lines 158-356): probe for the volume, fail pre-loop
validation errors fast, then run the candidate loop with empty
accumulators. -/
def create (s : CreateScript) (storagePoolName name : String) : CreateOutput :=
  match s.volExists with
  | .error e => ⟨.fatal ("error checking for existing volume: " ++ e), [], false, none⟩
  | .ok true => ⟨.alreadyExists name, [], false, none⟩
  | .ok false =>
    match s.preErr with
    | some e => ⟨.fatal e, [], false, none⟩
    | none => createLoop storagePoolName name s.candidates [] [] [] none

/-- Modelled from the spec: `drivers.NewVolumeExistsError` and the
orchestrator code that interprets it are not part of the given source
file; per the spec, the distinguished already-exists result returned by
`Create` is a no-op success signaling already created, not a failure. -/
def CreateResult.isNoOpAlreadyCreatedSuccess : CreateResult → Bool
  | .alreadyExists _ => true
  | _ => false

/-- A remote call that mutates controller state, as issued by `Resize`. -/
inductive RemoteMutation where
  | volumeSetSize (name : String) (size : Nat)
  | lunResize (path : String) (size : Nat)
deriving Repr

/-- Modelled from the spec: `utils.VolumeSizeWithinTolerance` is not part
of the given source file; per the spec it is the pure comparison of
whether the requested size is within the configured tolerance band of the
current size. -/
def volumeSizeWithinTolerance (requestedSize currentSize delta : Nat) : Bool :=
  decide (((requestedSize : Int) - (currentSize : Int)).natAbs ≤ delta)

/-- Scripted answers for a whole `Resize` call (lines 944-1072): the
existence probe, the current-size read, the aggregate and global size
limit checks, the LUN geometry feature flag and ceiling read, the Flexvol
resize, the LUN resize (whose success value is the actual resulting LUN
size), and the reconciliation block. -/
structure ResizeScript where
  volExists : Except String Bool
  volSize : Except String Nat
  aggrLimitsErr : Option String
  sizeLimitsErr : Option String
  lunGeometrySkip : Bool
  lunMaxResizeSize : Except String Nat
  volSetSize : Option ApiErr
  lunResize : Except String Nat
  recon : ReconScript
deriving Repr

/-- Observable outcome of a `Resize` run: the returned result, the final
content of `volConfig.Size` (`none` means untouched), and the remote
mutation calls issued, in order. -/
structure ResizeOutput where
  result : Except String Unit
  volConfigSize : Option Nat
  mutations : List RemoteMutation
deriving Repr

/-- Capacity reconciliation inside `Resize` (lines 1047-1069): compare the
LUN resize return size with the volume size, resize the volume on a
mismatch and re-read it; every failure only logs a warning. Returns the
value written into `volConfig.Size` by this block (`none` when it leaves
the field untouched) and the mutation calls issued. -/
def reconResize (r : ReconScript) (name : String) (returnSize : Nat) :
    Option Nat × List RemoteMutation :=
  match r.readSize1 with
  | .error _ => (none, [])
  | .ok initialVolumeSize =>
    if returnSize ≠ initialVolumeSize then
      (match r.setSize with
       | some _ => some initialVolumeSize
       | none =>
         match r.readSize2 with
         | .error _ => none
         | .ok adjustedVolumeSize => some adjustedVolumeSize,
       [.volumeSetSize name returnSize])
    else (none, [])

/-- The mutation phase of `Resize` (lines 1031-1071): Flexvol resize, LUN
resize, reconciliation. Note line 1070: after the reconciliation block,
`volConfig.Size` is unconditionally overwritten with the LUN resize
return size, clobbering whatever the reconciliation block wrote into it
at lines 1052 and 1062. -/
def resizeMutatePhase (s : ResizeScript) (name : String) (sizeBytes : Nat) : ResizeOutput :=
  let lp := lunPath name
  match s.volSetSize with
  | some _ => ⟨.error "volume resize failed", none, [.volumeSetSize name sizeBytes]⟩
  | none =>
    match s.lunResize with
    | .error _ =>
      ⟨.error "volume resize failed", none,
        [.volumeSetSize name sizeBytes, .lunResize lp sizeBytes]⟩
    | .ok returnSize =>
      let recon := reconResize s.recon name returnSize
      -- recon.1 is the volConfig.Size written by the reconciliation block;
      -- line 1070 immediately overwrites it with returnSize
      ⟨.ok (), some returnSize,
        [.volumeSetSize name sizeBytes, .lunResize lp sizeBytes] ++ recon.2⟩

/-- `Resize` (lines 944-1072): existence probe, current-size read,
tolerance no-op, shrink rejection, limit checks, LUN geometry ceiling,
then the mutation phase. `delta` is `tridentconfig.SANResizeDelta`. -/
def resize (s : ResizeScript) (name : String) (sizeBytes delta : Nat) : ResizeOutput :=
  match s.volExists with
  | .error _ => ⟨.error "error occurred checking for existing volume", none, []⟩
  | .ok false => ⟨.error ("volume " ++ name ++ " does not exist"), none, []⟩
  | .ok true =>
    match s.volSize with
    | .error _ => ⟨.error "error occurred when checking volume size", none, []⟩
    | .ok volSize =>
      if volumeSizeWithinTolerance sizeBytes volSize delta then
        ⟨.ok (), some volSize, []⟩
      else if sizeBytes < volSize then
        ⟨.error ("requested size " ++ toString sizeBytes ++
          " is less than existing volume size " ++ toString volSize), none, []⟩
      else
        match s.aggrLimitsErr with
        | some e => ⟨.error e, none, []⟩
        | none =>
          match s.sizeLimitsErr with
          | some e => ⟨.error e, none, []⟩
          | none =>
            if !s.lunGeometrySkip then
              match s.lunMaxResizeSize with
              | .error _ => ⟨.error "volume resize failed", none, []⟩
              | .ok lunMaxSize =>
                if lunMaxSize < sizeBytes then
                  ⟨.error "volume resize failed as requested size is larger than LUN maximum capacity",
                    none, []⟩
                else resizeMutatePhase s name sizeBytes
            else resizeMutatePhase s name sizeBytes

/-- Scripted answers for a `Destroy` call (lines 515-587): the existence
probe, whether the driver runs in the Docker context, the iSCSI target
info and LUN map list reads used only in that context, the configured
initiator group name, and the `VolumeDestroy` outcome (`.error` is a
transport error; `.ok none` a passed response; `.ok (some z)` a failed
response carrying the ZAPI error `z`). -/
structure DestroyScript where
  volExists : Except String Bool
  driverContextDocker : Bool
  iscsiTargetInfo : Except String String
  lunMapListInfo : Except String (Option (List (String × Int)))
  igroupName : String
  volDestroy : Except String (Option ZapiError)
deriving Repr

/-- Observable outcome of a `Destroy` run: the returned result, whether
the `VolumeDestroy` call was issued, and whether the host was told to
prepare the device for removal. -/
structure DestroyOutput where
  result : Except String Unit
  deleteAttempted : Bool
  preparedForRemoval : Bool
deriving Repr

/-- The LUN id lookup of lines 558-565: start from `-1` and take the id of
every map entry whose initiator group matches the configured one. -/
def lunIdFor (igroup : String) (groups : Option (List (String × Int))) : Int :=
  match groups with
  | none => -1
  | some gs => gs.foldl (fun acc g => if g.1 = igroup then g.2 else acc) (-1)

/-- `Destroy` (lines 515-587): succeed immediately when the volume is
absent; in the Docker context resolve the LUN mapping and prepare the
host for removal; then destroy the Flexvol, treating a does-not-exist
ZAPI error as success and any other failure as fatal. -/
def destroy (s : DestroyScript) (name : String) : DestroyOutput :=
  match s.volExists with
  | .error e => ⟨.error ("error checking for existing volume: " ++ e), false, false⟩
  | .ok false => ⟨.ok (), false, false⟩
  | .ok true =>
    let dockerStep : Except String Bool :=
      if s.driverContextDocker then
        match s.iscsiTargetInfo with
        | .error e => .error e
        | .ok _ =>
          match s.lunMapListInfo with
          | .error e => .error ("error reading LUN maps for volume " ++ name ++ ": " ++ e)
          | .ok groups => .ok (decide (0 ≤ lunIdFor s.igroupName groups))
      else .ok false
    match dockerStep with
    | .error e => ⟨.error e, false, false⟩
    | .ok prepared =>
      match s.volDestroy with
      | .error e => ⟨.error ("error destroying volume " ++ name ++ ": " ++ e), true, prepared⟩
      | .ok none => ⟨.ok (), true, prepared⟩
      | .ok (some zerr) =>
        if zerr.code = EVOLUMEDOESNOTEXIST then ⟨.ok (), true, prepared⟩
        else ⟨.error ("error destroying volume " ++ name ++ ": " ++ zerr.msg), true, prepared⟩

/-- The volume id attributes of a controller volume record
(`VolumeIdAttributesPtr`); `typePtr` is the possibly-absent volume type. -/
structure VolumeIdAttrs where
  typePtr : Option String
deriving Repr

/-- A controller volume record as read by `VolumeGet`. -/
structure Flexvol where
  volumeIdAttrsPtr : Option VolumeIdAttrs
deriving Repr

/-- A controller LUN record as read by `LunGet`: the path and the
possibly-absent online, size and mapped attributes. -/
structure LunInfo where
  path : String
  onlinePtr : Option Bool
  sizePtr : Option Nat
  mappedPtr : Option Bool
deriving Repr

/-- Scripted answers for an `Import` call (lines 409-491). -/
structure ImportScript where
  volumeGet : Except String (Option Flexvol)
  lunGet : Except String LunInfo
  lunRename : Option ApiErr
  volumeRename : Option ApiErr
deriving Repr

/-- Observable outcome of an `Import` run: the returned result and the
final content of `volConfig.Size` (`none` means untouched). -/
structure ImportOutput where
  result : Except String Unit
  volConfigSize : Option Nat
deriving Repr

/-- The read-write-type validation of lines 438-444: reports the offending
type only when the id attributes and the type field are both present and
the type differs from `rw`. -/
def typeNotRw (f : Flexvol) : Option String :=
  match f.volumeIdAttrsPtr with
  | none => none
  | some a =>
    match a.typePtr with
    | none => none
    | some t => if t = "rw" then none else some t

/-- The online validation of lines 447-451: fails only when the online
field is present and false. -/
def lunNotOnline (l : LunInfo) : Bool :=
  match l.onlinePtr with
  | some o => !o
  | none => false

/-- The mapped validation of lines 483-487: fails only when the mapped
field is present and false. -/
def lunNotMapped (l : LunInfo) : Bool :=
  match l.mappedPtr with
  | some m => !m
  | none => false

/-- `Import` (lines 409-491): read the volume and LUN records, validate
type and online status where the attributes are present, adopt the LUN
size into `volConfig.Size`, then either rename (managed import) or
validate the canonical path and mapping (unmanaged import). -/
def volImport (s : ImportScript) (originalName : String)
    (importNotManaged : Bool) : ImportOutput :=
  match s.volumeGet with
  | .error e => ⟨.error e, none⟩
  | .ok none => ⟨.error ("volume " ++ originalName ++ " not found"), none⟩
  | .ok (some flexvol) =>
    match s.lunGet with
    | .error e => ⟨.error e, none⟩
    | .ok lunInfo =>
      let targetPath := "/vol/" ++ originalName ++ "/lun0"
      match typeNotRw flexvol with
      | some t => ⟨.error ("volume " ++ originalName ++ " type is " ++ t ++ ", not rw"), none⟩
      | none =>
        if lunNotOnline lunInfo then
          ⟨.error ("LUN " ++ lunInfo.path ++ " is not online"), none⟩
        else
          match lunInfo.sizePtr with
          | none => ⟨.error ("volume " ++ originalName ++ " size not available"), none⟩
          | some sz =>
            if importNotManaged then
              match flexvol.volumeIdAttrsPtr with
              | none =>
                ⟨.error ("unable to read volume id attributes of volume " ++ originalName), some sz⟩
              | some _ =>
                if lunInfo.path ≠ targetPath then
                  ⟨.error ("Could not import volume, LUN is nammed incorrectly: " ++ lunInfo.path),
                    some sz⟩
                else if lunNotMapped lunInfo then
                  ⟨.error ("Could not import volume, LUN is not mapped: " ++ lunInfo.path), some sz⟩
                else ⟨.ok (), some sz⟩
            else
              let volRenameStep : ImportOutput :=
                match s.volumeRename with
                | some e =>
                  ⟨.error ("volume " ++ originalName ++ " rename failed: " ++ e.msg), some sz⟩
                | none => ⟨.ok (), some sz⟩
              if lunInfo.path ≠ targetPath then
                match s.lunRename with
                | some e =>
                  ⟨.error ("LUN path " ++ lunInfo.path ++ " rename failed: " ++ e.msg), some sz⟩
                | none => volRenameStep
              else volRenameStep

/-- A candidate on which the loop body records an error and advances:
its aggregate-limit check fails, or its volume creation fails with
something other than the job-exists accommodation, or its volume creation
succeeds and its LUN creation fails. -/
def candRecordedFailure (c : Candidate) : Bool :=
  match c.aggrLimitsErr with
  | some _ => true
  | none =>
    match c.volCreate with
    | some e => !isJobExistsErr e
    | none =>
      match c.lunCreate with
      | .error _ => true
      | .ok _ => false

/-- The single error message the loop body records for a candidate on
which `candRecordedFailure` holds. -/
def candRecordedMsg (pool name : String) (c : Candidate) : String :=
  match c.aggrLimitsErr with
  | some e => aggrLimitMsg pool c.aggrName e
  | none =>
    match c.volCreate with
    | some e => volCreateMsg pool c.aggrName name e
    | none =>
      match c.lunCreate with
      | .error e => lunCreateMsg pool c.aggrName name e
      | .ok _ => ""

/-- Whether the loop body successfully creates the Flexvol on this
candidate before (possibly) failing at a later step. -/
def candCreatesVol (c : Candidate) : Bool :=
  c.aggrLimitsErr.isNone && c.volCreate.isNone

/-- When every candidate records a failure, the loop returns the
backend-ineligible result carrying one recorded message per candidate in
order, one pool name per candidate in order, and leaves in place every
Flexvol it created along the way. -/
theorem createLoop_all_recorded (pool name : String) (cands : List Candidate)
    (errs pools vols : List String) (vcs : Option Nat)
    (h : cands.all candRecordedFailure = true) :
    createLoop pool name cands errs pools vols vcs =
      ⟨.ineligible (errs ++ cands.map (candRecordedMsg pool name))
         (pools ++ cands.map Candidate.aggrName),
       vols ++ (cands.filter candCreatesVol).map Candidate.aggrName, false, vcs⟩ := by
  induction cands generalizing errs pools vols with
  | nil => simp [createLoop]
  | cons c rest ih =>
    rw [List.all_cons, Bool.and_eq_true] at h
    obtain ⟨hc, hrest⟩ := h
    obtain ⟨aggr, alim, vc, lc, a1, a2, r⟩ := c
    cases alim with
    | some e =>
      simp [createLoop, ih _ _ _ hrest, candRecordedMsg, candCreatesVol,
        List.append_assoc]
    | none =>
      cases vc with
      | some e =>
        have hje : isJobExistsErr e = false := by
          simpa [candRecordedFailure] using hc
        simp [createLoop, hje, ih _ _ _ hrest, candRecordedMsg, candCreatesVol,
          List.append_assoc]
      | none =>
        cases lc with
        | error e =>
          simp [createLoop, ih _ _ _ hrest, candRecordedMsg, candCreatesVol,
            List.append_assoc]
        | ok sz => simp [candRecordedFailure] at hc

/-- Claim C1: for every `Create` call whose initial existence probe
reports that the target volume already exists, `Create` returns the
distinguished already-exists result — under the spec-modelled reading a
no-op success signaling already created, not a failure — touching no
candidate, creating nothing and destroying nothing. -/
theorem create_already_exists_noop (preErr : Option String) (cands : List Candidate)
    (pool name : String) :
    create ⟨Except.ok true, preErr, cands⟩ pool name
      = ⟨.alreadyExists name, [], false, none⟩ ∧
    ((create ⟨Except.ok true, preErr, cands⟩ pool name).result).isNoOpAlreadyCreatedSuccess
      = true :=
  ⟨rfl, rfl⟩

/-- Claim C2 (evaluating the code at the failing input): a `Resize` to
1000 bytes whose LUN resize returns 1000 and whose reconciliation resizes
the Flexvol from 900 and re-reads 1100 afterwards still reports 1000 —
the LUN-level value written by the unconditional assignment at line 1070 —
to the caller, not the post-reconciliation re-read size 1100. -/
theorem resize_reports_lun_size_not_readback :
    resize ⟨Except.ok true, Except.ok 500, none, none, true, Except.ok 0, none,
      Except.ok 1000, ⟨Except.ok 900, none, Except.ok 1100⟩⟩ "vol" 1000 0
      = ⟨Except.ok (), some 1000,
         [.volumeSetSize "vol" 1000, .lunResize "/vol/vol/lun0" 1000,
          .volumeSetSize "vol" 1000]⟩ ∧
    (resize ⟨Except.ok true, Except.ok 500, none, none, true, Except.ok 0, none,
      Except.ok 1000, ⟨Except.ok 900, none, Except.ok 1100⟩⟩ "vol" 1000 0).volConfigSize
      ≠ some 1100 :=
  ⟨rfl, by decide⟩

/-- Counterexample for Claim C3: with two candidates where the first gets
through volume and LUN creation but fails to save the file-system-type
attribute, `Create` aborts with a single fatal error (destroying the LUN)
instead of recording the failure and advancing to the second, fully
healthy candidate. -/
theorem create_fstype_attr_fatal_cex :
    create ⟨Except.ok false, none,
      [⟨"aggr1", none, none, Except.ok 100, some (.transport "attr call failed"), none,
         ⟨Except.ok 100, none, Except.ok 100⟩⟩,
       ⟨"aggr2", none, none, Except.ok 100, none, none,
         ⟨Except.ok 100, none, Except.ok 100⟩⟩]⟩ "pool" "vol"
      = ⟨.fatal (fstypeAttrMsg "pool" "aggr1" "vol" (.transport "attr call failed")),
         ["aggr1"], true, none⟩ := by
  rfl

/-- Claim C3 as amended: after volume creation succeeds on a candidate, a
Device (LUN) creation failure is recorded in the per-candidate error list
and the loop advances to the next candidate; but a failure to tag the LUN
with the file-system type aborts `Create` with a single fatal error,
scheduling destruction of the just-created LUN, while a failure to tag
the originating context is only a warning and the candidate succeeds. -/
theorem create_loop_post_mutation_failures
    (pool name aggr : String) (e : ApiErr) (rest : List Candidate)
    (errs pools vols : List String) (vcs : Option Nat)
    (lunSize : Nat) (r : ReconScript) (a2 : Option ApiErr) :
    createLoop pool name (⟨aggr, none, none, .error e, none, a2, r⟩ :: rest) errs pools vols vcs
      = createLoop pool name rest (errs ++ [lunCreateMsg pool aggr name e])
          (pools ++ [aggr]) (vols ++ [aggr]) vcs ∧
    createLoop pool name (⟨aggr, none, none, .ok lunSize, some e, a2, r⟩ :: rest)
        errs pools vols vcs
      = ⟨.fatal (fstypeAttrMsg pool aggr name e), vols ++ [aggr], true, vcs⟩ ∧
    createLoop pool name (⟨aggr, none, none, .ok lunSize, none, some e, r⟩ :: rest)
        errs pools vols vcs
      = ⟨.ok, vols ++ [aggr], false, reconCreate r lunSize vcs⟩ :=
  ⟨rfl, rfl, rfl⟩

/-- Counterexample for Claim C4: one candidate whose volume creation
succeeds and whose LUN creation fails — `Create` returns the aggregated
placement failure with exactly one recorded error, yet the Flexvol
created on that candidate still exists afterward. -/
theorem create_exhaustion_container_remains_cex :
    create ⟨Except.ok false, none,
      [⟨"aggr1", none, none, Except.error (.transport "lun create failed"), none, none,
         ⟨Except.ok 100, none, Except.ok 100⟩⟩]⟩ "pool" "vol"
      = ⟨.ineligible [lunCreateMsg "pool" "aggr1" "vol" (.transport "lun create failed")]
          ["aggr1"], ["aggr1"], false, none⟩ := by
  rfl

/-- Claim C4 as amended: if every one of the N candidates fails with a
recorded failure, `Create` returns the aggregated placement failure
carrying exactly N per-candidate errors, one per candidate in the
caller-supplied order; Flexvols created on candidates that failed after
volume creation remain in place, and only when every candidate failed
before its volume creation succeeded does no Flexvol exist afterward. -/
theorem create_exhaustion_aggregated (pool name : String) (cands : List Candidate)
    (h : cands.all candRecordedFailure = true) :
    create ⟨Except.ok false, none, cands⟩ pool name
      = ⟨.ineligible (cands.map (candRecordedMsg pool name)) (cands.map Candidate.aggrName),
         (cands.filter candCreatesVol).map Candidate.aggrName, false, none⟩ ∧
    (cands.map (candRecordedMsg pool name)).length = cands.length ∧
    (cands.all (fun c => !candCreatesVol c) = true →
      (create ⟨Except.ok false, none, cands⟩ pool name).volsCreated = []) := by
  have h1 := createLoop_all_recorded pool name cands [] [] [] none h
  refine ⟨by simpa [create] using h1, by simp, ?_⟩
  intro hall
  have hfil : cands.filter candCreatesVol = [] := by
    rw [List.filter_eq_nil_iff]
    intro c hc
    have := List.all_eq_true.mp hall c hc
    simpa using this
  simp [create, h1, hfil]

/-- Witness for the amended Claim C4 at two concrete failing candidates. -/
theorem create_exhaustion_aggregated_witness :
    create ⟨Except.ok false, none,
      [⟨"a1", some "aggregate full", none, Except.ok 0, none, none,
         ⟨Except.ok 0, none, Except.ok 0⟩⟩,
       ⟨"a2", none, some (.transport "create failed"), Except.ok 0, none, none,
         ⟨Except.ok 0, none, Except.ok 0⟩⟩]⟩ "p" "v"
      = ⟨.ineligible
           ([⟨"a1", some "aggregate full", none, Except.ok 0, none, none,
               ⟨Except.ok 0, none, Except.ok 0⟩⟩,
             ⟨"a2", none, some (.transport "create failed"), Except.ok 0, none, none,
               ⟨Except.ok 0, none, Except.ok 0⟩⟩].map (candRecordedMsg "p" "v"))
           ([⟨"a1", some "aggregate full", none, Except.ok 0, none, none,
               ⟨Except.ok 0, none, Except.ok 0⟩⟩,
             ⟨"a2", none, some (.transport "create failed"), Except.ok 0, none, none,
               ⟨Except.ok 0, none, Except.ok 0⟩⟩].map Candidate.aggrName),
         ([⟨"a1", some "aggregate full", none, Except.ok 0, none, none,
             ⟨Except.ok 0, none, Except.ok 0⟩⟩,
           ⟨"a2", none, some (.transport "create failed"), Except.ok 0, none, none,
             ⟨Except.ok 0, none, Except.ok 0⟩⟩].filter candCreatesVol).map Candidate.aggrName,
         false, none⟩ :=
  (create_exhaustion_aggregated "p" "v"
    [⟨"a1", some "aggregate full", none, Except.ok 0, none, none,
       ⟨Except.ok 0, none, Except.ok 0⟩⟩,
     ⟨"a2", none, some (.transport "create failed"), Except.ok 0, none, none,
       ⟨Except.ok 0, none, Except.ok 0⟩⟩] (by decide)).1

/-- Claim C5: a volume-creation error on a candidate whose controller
code is `EAPIERROR` and whose trimmed reason ends in `Job exists` makes
`Create` return overall success immediately: nothing is recorded, no
further candidate is tried, and the whole `Create` returns success. -/
theorem create_job_exists_immediate_success
    (pool name aggr reason : String) (lc : Except ApiErr Nat) (a1 a2 : Option ApiErr)
    (r : ReconScript) (rest : List Candidate)
    (errs pools vols : List String) (vcs : Option Nat)
    (h : hasSuffixChars (trimSpaceChars reason.data) "Job exists".data = true) :
    createLoop pool name
      (⟨aggr, none, some (.zapi ⟨EAPIERROR, reason⟩), lc, a1, a2, r⟩ :: rest)
      errs pools vols vcs = ⟨.ok, vols, false, vcs⟩ ∧
    (create ⟨Except.ok false, none,
      ⟨aggr, none, some (.zapi ⟨EAPIERROR, reason⟩), lc, a1, a2, r⟩ :: rest⟩ pool name).result
      = .ok := by
  constructor
  · simp [createLoop, isJobExistsErr, h]
  · simp [create, createLoop, isJobExistsErr, h]

/-- Witness for Claim C5 at a concrete controller reason text. -/
theorem create_job_exists_immediate_success_witness :
    createLoop "p" "v"
      [⟨"a1", none, some (.zapi ⟨EAPIERROR, "Failed to create job. Job exists"⟩),
        Except.ok 0, none, none, ⟨Except.ok 0, none, Except.ok 0⟩⟩]
      [] [] [] none = ⟨.ok, [], false, none⟩ :=
  (create_job_exists_immediate_success "p" "v" "a1" "Failed to create job. Job exists"
    (Except.ok 0) none none ⟨Except.ok 0, none, Except.ok 0⟩ [] [] [] [] none (by decide)).1

/-- Claim C6: a `Resize` whose requested size is within the tolerance
delta of the current volume size returns success, issues no remote
mutation call, and reports the current volume size back to the caller. -/
theorem resize_tolerance_noop (s : ResizeScript) (name : String) (sizeBytes delta volSize : Nat)
    (hex : s.volExists = Except.ok true) (hsz : s.volSize = Except.ok volSize)
    (htol : volumeSizeWithinTolerance sizeBytes volSize delta = true) :
    resize s name sizeBytes delta = ⟨Except.ok (), some volSize, []⟩ := by
  obtain ⟨ve, vs, al, sl, gs, lg, vss, lr, rc⟩ := s
  simp only at hex hsz
  subst hex; subst hsz
  simp [resize, htol]

/-- Witness for Claim C6: resize to 100 with current size 90 and delta 50. -/
theorem resize_tolerance_noop_witness :
    resize ⟨Except.ok true, Except.ok 90, none, none, true, Except.ok 0, none,
      Except.ok 0, ⟨Except.ok 0, none, Except.ok 0⟩⟩ "v" 100 50
      = ⟨Except.ok (), some 90, []⟩ :=
  resize_tolerance_noop _ "v" 100 50 90 rfl rfl (by decide)

/-- Claim C7: a `Resize` whose requested size is outside the tolerance
band and below the current volume size fails with the shrink error and
issues no remote mutation call. -/
theorem resize_shrink_rejected (s : ResizeScript) (name : String) (sizeBytes delta volSize : Nat)
    (hex : s.volExists = Except.ok true) (hsz : s.volSize = Except.ok volSize)
    (htol : volumeSizeWithinTolerance sizeBytes volSize delta = false)
    (hlt : sizeBytes < volSize) :
    resize s name sizeBytes delta
      = ⟨Except.error ("requested size " ++ toString sizeBytes ++
          " is less than existing volume size " ++ toString volSize), none, []⟩ := by
  obtain ⟨ve, vs, al, sl, gs, lg, vss, lr, rc⟩ := s
  simp only at hex hsz
  subst hex; subst hsz
  simp [resize, htol, hlt]

/-- Witness for Claim C7: resize to 10 with current size 1000, delta 5. -/
theorem resize_shrink_rejected_witness :
    resize ⟨Except.ok true, Except.ok 1000, none, none, true, Except.ok 0, none,
      Except.ok 0, ⟨Except.ok 0, none, Except.ok 0⟩⟩ "v" 10 5
      = ⟨Except.error ("requested size " ++ toString (10 : Nat) ++
          " is less than existing volume size " ++ toString (1000 : Nat)), none, []⟩ :=
  resize_shrink_rejected _ "v" 10 5 1000 rfl rfl (by decide) (by decide)

/-- Claim C8: whatever the reconciliation script answers — including
failures of the size read, of the Flexvol resize to the LUN size, or of
the re-read — a `Create` candidate that got through LUN creation and
attribute tagging still succeeds, and a `Resize` that got through the
Flexvol and LUN resizes still succeeds. -/
theorem reconciliation_failures_nonfatal
    (pool name aggr : String) (lunSize : Nat) (a2 : Option ApiErr) (r : ReconScript)
    (rest : List Candidate) (errs pools vols : List String) (vcs : Option Nat)
    (sizeBytes delta volSize rs : Nat) (lg : Except String Nat)
    (htol : volumeSizeWithinTolerance sizeBytes volSize delta = false)
    (hlt : ¬ sizeBytes < volSize) :
    (createLoop pool name (⟨aggr, none, none, Except.ok lunSize, none, a2, r⟩ :: rest)
       errs pools vols vcs).result = .ok ∧
    (resize ⟨Except.ok true, Except.ok volSize, none, none, true, lg, none,
       Except.ok rs, r⟩ name sizeBytes delta).result = Except.ok () := by
  constructor
  · rfl
  · simp [resize, htol, hlt, resizeMutatePhase]

/-- Witness for Claim C8 at a reconciliation script all of whose calls
fail. -/
theorem reconciliation_failures_nonfatal_witness :
    (createLoop "p" "v"
       [⟨"a1", none, none, Except.ok 100, none, none,
          ⟨Except.error "read failed", some (.transport "setsize failed"),
           Except.error "reread failed"⟩⟩] [] [] [] none).result = .ok ∧
    (resize ⟨Except.ok true, Except.ok 100, none, none, true, Except.ok 0, none,
       Except.ok 250,
       ⟨Except.error "read failed", some (.transport "setsize failed"),
        Except.error "reread failed"⟩⟩ "v" 200 0).result = Except.ok () :=
  reconciliation_failures_nonfatal "p" "v" "a1" 100 none
    ⟨Except.error "read failed", some (.transport "setsize failed"),
     Except.error "reread failed"⟩ [] [] [] [] none 200 0 100 250 (Except.ok 0)
    (by decide) (by decide)

/-- Claim C9: `Destroy` succeeds without attempting the delete when the
volume does not exist; a does-not-exist ZAPI error received from the
delete call is also treated as success; any other ZAPI error from the
delete call is fatal. -/
theorem destroy_idempotent :
    (∀ (docker : Bool) (ti : Except String String)
       (lm : Except String (Option (List (String × Int)))) (ig name : String)
       (vd : Except String (Option ZapiError)),
       destroy ⟨Except.ok false, docker, ti, lm, ig, vd⟩ name
         = ⟨Except.ok (), false, false⟩) ∧
    (∀ (ti : Except String String) (lm : Except String (Option (List (String × Int))))
       (ig name reason : String),
       destroy ⟨Except.ok true, false, ti, lm, ig,
         Except.ok (some ⟨EVOLUMEDOESNOTEXIST, reason⟩)⟩ name
         = ⟨Except.ok (), true, false⟩) ∧
    (∀ (ti : Except String String) (lm : Except String (Option (List (String × Int))))
       (ig name : String) (z : ZapiError), z.code ≠ EVOLUMEDOESNOTEXIST →
       destroy ⟨Except.ok true, false, ti, lm, ig, Except.ok (some z)⟩ name
         = ⟨Except.error ("error destroying volume " ++ name ++ ": " ++ z.msg),
            true, false⟩) := by
  refine ⟨fun docker ti lm ig name vd => rfl,
    fun ti lm ig name reason => by simp [destroy],
    fun ti lm ig name z hz => by simp [destroy, hz]⟩

/-- Witness for Claim C9: a delete failing with a non does-not-exist code
is fatal. -/
theorem destroy_idempotent_witness :
    destroy ⟨Except.ok true, false, Except.ok "", Except.ok none, "ig",
      Except.ok (some ⟨EAPIERROR, "boom"⟩)⟩ "v"
      = ⟨Except.error ("error destroying volume " ++ "v" ++ ": "
          ++ (ZapiError.mk EAPIERROR "boom").msg), true, false⟩ :=
  destroy_idempotent.2.2 (Except.ok "") (Except.ok none) "ig" "v"
    ⟨EAPIERROR, "boom"⟩ (by decide)

/-- Claim C10: when the volume-type field or the LUN-online field is
absent from the controller reply, `Import` skips the corresponding
validation and the import proceeds: with the type absent and the LUN
reported online, with the type `rw` and the online flag absent, and with
both absent, a managed import at the canonical path succeeds and adopts
the LUN size. -/
theorem adoption_skips_absent_attribute_checks
    (orig : String) (sz : Nat) (lr : Option ApiErr) (mp : Option Bool) :
    volImport ⟨Except.ok (some ⟨some ⟨none⟩⟩),
      Except.ok ⟨"/vol/" ++ orig ++ "/lun0", some true, some sz, mp⟩, lr, none⟩ orig false
      = ⟨Except.ok (), some sz⟩ ∧
    volImport ⟨Except.ok (some ⟨some ⟨some "rw"⟩⟩),
      Except.ok ⟨"/vol/" ++ orig ++ "/lun0", none, some sz, mp⟩, lr, none⟩ orig false
      = ⟨Except.ok (), some sz⟩ ∧
    volImport ⟨Except.ok (some ⟨none⟩),
      Except.ok ⟨"/vol/" ++ orig ++ "/lun0", none, some sz, mp⟩, lr, none⟩ orig false
      = ⟨Except.ok (), some sz⟩ := by
  refine ⟨?_, ?_, ?_⟩ <;> simp [volImport, typeNotRw, lunNotOnline]

end OntapSan
